import Mathlib

/-!
Shallow embedding of the PortalChat persistence/authorization layer
(`src/server/db.py`, class `Database`) and verification of its spec.

Modelling conventions:
- The sqlite database is a `DBState` record of row lists in insertion order.
- `AUTOINCREMENT` / rowid counters are explicit `next*` fields of the state.
- Python exceptions become a `DBError` value; a mutating method returns
  `DBState × Except DBError α` (state is returned even on error, because the
  Python object is mutated and committed before a later raise can happen).
- sqlite's `CHECK (rank >= 0 AND rank <= 255)` on the roles table is the
  integrity error raised by `create_role` for an out-of-range rank.
- sqlite leaves join and tie order unspecified; joins are embedded with a
  fixed nesting order and `ORDER BY timestamp` as a stable insertion sort.
- `CURRENT_TIMESTAMP` is passed to `create_message_in_channel` as an explicit
  `ts : Nat` argument (explicit state passing of the wall clock).
-/

/-- Errors surfaced by the database layer: Python `ValueError` raises, and
sqlite integrity errors from schema `CHECK` constraints. -/
inductive DBError where
  | valueError (msg : String)
  | integrityError
deriving Repr, DecidableEq

/-- A dynamically-typed Python return value, used where the source's return
type matters to a claim (`create_user` returns `cur.lastrowid`, an integer,
while its uuids are strings). -/
inductive RetVal where
  | int (n : Nat)
  | str (s : String)
deriving Repr, DecidableEq

/-- A row of the `roles` table. -/
structure Role where
  role_id : Nat
  name : String
  rank : Int
  send_messages : Bool
  view_message_history : Bool
  mute_members : Bool
  kick_members : Bool
  ban_members : Bool
  manage_channels : Bool
  manage_server : Bool
  super_admin : Bool
deriving Repr, DecidableEq

/-- A row of the `channels` table. -/
structure Channel where
  channel_id : Nat
  name : String
  server_id : Nat
deriving Repr, DecidableEq

/-- A row of the `messages` table (`user_uuid` is nullable: `ON DELETE SET
NULL`; `user_name` is the denormalized snapshot taken at post time). -/
structure Message where
  message_id : Nat
  content : String
  timestamp : Nat
  user_uuid : Option String
  user_name : String
  channel_id : Nat
deriving Repr, DecidableEq

/-- The whole database: each table as a list of rows in insertion order,
plus the auto-id counters sqlite keeps for the tables with integer keys. -/
structure DBState where
  servers : List (Nat × String)
  users : List (String × String)
  memberships : List (String × Nat)
  channels : List Channel
  messages : List Message
  roles : List Role
  user_roles : List (String × Nat × Nat)
  nextChannelId : Nat
  nextMessageId : Nat
  nextRoleId : Nat
  nextUserRowid : Nat
deriving Repr, DecidableEq

/-- The empty database right after schema creation. -/
def emptyDB : DBState :=
  { servers := [], users := [], memberships := [], channels := [],
    messages := [], roles := [], user_roles := [],
    nextChannelId := 1, nextMessageId := 1, nextRoleId := 1, nextUserRowid := 1 }

/-- `user_exists`: `SELECT 1 FROM users WHERE user_uuid = ? LIMIT 1`. -/
def user_exists (st : DBState) (user_uuid : String) : Bool :=
  st.users.any (fun usr => usr.1 == user_uuid)

/-- `server_exists`: `SELECT 1 FROM servers WHERE server_id = ? LIMIT 1`. -/
def server_exists (st : DBState) (server_id : Nat) : Bool :=
  st.servers.any (fun sv => sv.1 == server_id)

/-- `is_user_in_server`: membership row lookup. -/
def is_user_in_server (st : DBState) (user_uuid : String) (server_id : Nat) : Bool :=
  st.memberships.any (fun mb => mb.1 == user_uuid && mb.2 == server_id)

/-- `get_channel_by_name`: `SELECT * FROM channels WHERE server_id = ? AND
name = ? LIMIT 1` (first row in table order). -/
def get_channel_by_name (st : DBState) (server_id : Nat) (channel_name : String) :
    Option Channel :=
  st.channels.find? (fun c => c.server_id == server_id && c.name == channel_name)

/-- The `valid_permissions` set of `can_user`: the fixed eight capability
column names of the `roles` table. -/
def validPermissions : List String :=
  ["send_messages", "view_message_history", "mute_members", "kick_members",
   "ban_members", "manage_channels", "manage_server", "super_admin"]

/-- Dynamic column selection `r.{permission}` used by `can_user`'s query
(only ever evaluated at one of the eight validated names). -/
def getPerm (r : Role) : String → Bool
  | "send_messages" => r.send_messages
  | "view_message_history" => r.view_message_history
  | "mute_members" => r.mute_members
  | "kick_members" => r.kick_members
  | "ban_members" => r.ban_members
  | "manage_channels" => r.manage_channels
  | "manage_server" => r.manage_server
  | "super_admin" => r.super_admin
  | _ => false

/-- `can_user`: raises `ValueError` on an unknown permission name; otherwise
`SELECT MAX(r.perm) FROM roles r JOIN user_roles ur ON r.role_id = ur.role_id
WHERE ur.user_uuid = ? AND ur.server_id = ?`, then `result and result[0] == 1`.
`MAX` over the joined rows is 1 iff some joined row has the flag set; over an
empty join it is NULL, and `(None,)[0] == 1` is `False`. -/
def can_user (st : DBState) (user_uuid : String) (server_id : Nat)
    (permission : String) : Except DBError Bool :=
  if permission ∈ validPermissions then
    Except.ok (st.user_roles.any (fun t =>
      t.1 == user_uuid && t.2.2 == server_id &&
        st.roles.any (fun r => r.role_id == t.2.1 && getPerm r permission)))
  else
    Except.error (DBError.valueError ("Invalid permission: " ++ permission))

/-- Join step of `get_roles_for_user_in_server`: for each matching
`user_roles` row, the `roles` rows with that `role_id`. -/
def rolesJoin (roles : List Role) : List (String × Nat × Nat) → List Role
  | [] => []
  | t :: ts => roles.filter (fun r => r.role_id == t.2.1) ++ rolesJoin roles ts

/-- `get_roles_for_user_in_server`: `SELECT r.* FROM roles r JOIN user_roles
ur ON r.role_id = ur.role_id WHERE ur.user_uuid = ? AND ur.server_id = ?`
(row order unspecified by SQL; embedded user_roles-major). -/
def get_roles_for_user_in_server (st : DBState) (user_uuid : String)
    (server_id : Nat) : List Role :=
  rolesJoin st.roles
    (st.user_roles.filter (fun t => t.1 == user_uuid && t.2.2 == server_id))

/-- `users_in_server_id`: `SELECT u.username FROM users u JOIN memberships m
ON u.user_uuid = m.user_uuid WHERE m.server_id = ?` — one row per membership
whose uuid is registered (`user_uuid` is the users PK, so at most one match),
returned as the raw rows. -/
def users_in_server_id (st : DBState) (server_id : Nat) : List String :=
  (st.memberships.filter (fun mb => mb.2 == server_id)).filterMap
    (fun mb => (st.users.find? (fun usr => usr.1 == mb.1)).map (fun usr => usr.2))

/-- Stable insertion of a message into a timestamp-sorted list (the new
message goes after existing equal timestamps). -/
def insertByTs (m : Message) : List Message → List Message
  | [] => [m]
  | x :: xs => if m.timestamp ≤ x.timestamp then m :: x :: xs else x :: insertByTs m xs

/-- `ORDER BY m.timestamp ASC`, embedded as a stable sort. -/
def sortByTs (l : List Message) : List Message :=
  l.foldr insertByTs []

/-- The `LEFT JOIN users u ON m.user_uuid = u.user_uuid` projection of one
message row: `(message_id, content, timestamp, u.username)` — note the
username comes from the current `users` table, not the stored snapshot. -/
def messageRow (st : DBState) (m : Message) : Nat × String × Nat × Option String :=
  (m.message_id, m.content, m.timestamp,
    m.user_uuid.bind (fun uu => (st.users.find? (fun usr => usr.1 == uu)).map (fun usr => usr.2)))

/-- `get_messages_in_channel`: filter by channel, order by timestamp
ascending, left-join usernames. -/
def get_messages_in_channel (st : DBState) (channel_id : Nat) :
    List (Nat × String × Nat × Option String) :=
  (sortByTs (st.messages.filter (fun m => m.channel_id == channel_id))).map (messageRow st)

/-- `permissions.get(key, default)` of `create_role`. -/
def permGet (perms : List (String × Bool)) (key : String) (dflt : Bool) : Bool :=
  (perms.lookup key).getD dflt

/-- `create_role`: inserts a roles row with the partial capability map
filled in by the in-code defaults; the schema `CHECK (rank >= 0 AND rank <=
255)` rejects out-of-range ranks with an integrity error and inserts
nothing. Returns `cur.lastrowid`, the fresh role_id. -/
def create_role (st : DBState) (name : String) (rank : Int)
    (permissions : List (String × Bool)) : DBState × Except DBError Nat :=
  if rank < 0 ∨ 255 < rank then
    (st, Except.error DBError.integrityError)
  else
    ({ st with
        roles := st.roles ++
          [{ role_id := st.nextRoleId, name := name, rank := rank,
             send_messages := permGet permissions ("send_messages") true,
             view_message_history := permGet permissions ("view_message_history") true,
             mute_members := permGet permissions ("mute_members") false,
             kick_members := permGet permissions ("kick_members") false,
             ban_members := permGet permissions ("ban_members") false,
             manage_channels := permGet permissions ("manage_channels") false,
             manage_server := permGet permissions ("manage_server") false,
             super_admin := permGet permissions ("super_admin") false }],
        nextRoleId := st.nextRoleId + 1 },
     Except.ok st.nextRoleId)

/-- `assign_role_to_user`: `INSERT OR IGNORE INTO user_roles` — a no-op when
the triple is already present; never raises. -/
def assign_role_to_user (st : DBState) (user_uuid : String) (role_id : Nat)
    (server_id : Nat) : DBState :=
  if (user_uuid, role_id, server_id) ∈ st.user_roles then st
  else { st with user_roles := st.user_roles ++ [(user_uuid, role_id, server_id)] }

/-- `create_channel_in_server`: when a channel of that name already exists in
the server the function hits a bare `return` — Python returns `None`, not the
existing channel's id. Otherwise it raises `ValueError` if the server id does
not exist, else inserts the channel and returns `cur.lastrowid`. -/
def create_channel_in_server (st : DBState) (server_id : Nat)
    (channel_name : String) : DBState × Except DBError (Option Nat) :=
  if (get_channel_by_name st server_id channel_name).isSome then
    (st, Except.ok none)
  else if server_exists st server_id then
    ({ st with
        channels := st.channels ++
          [{ channel_id := st.nextChannelId, name := channel_name, server_id := server_id }],
        nextChannelId := st.nextChannelId + 1 },
     Except.ok (some st.nextChannelId))
  else
    (st, Except.error (DBError.valueError
      ("Server ID " ++ toString server_id ++ " does not exist.")))

/-- `create_message_in_channel`: raises `ValueError` when the channel or the
author uuid does not exist; otherwise inserts the message (timestamp `ts`
standing for `CURRENT_TIMESTAMP`) and returns `cur.lastrowid`. -/
def create_message_in_channel (st : DBState) (channel_id : Nat)
    (user_uuid : String) (user_name : String) (content : String) (ts : Nat) :
    DBState × Except DBError Nat :=
  if st.channels.any (fun c => c.channel_id == channel_id) then
    if user_exists st user_uuid then
      ({ st with
          messages := st.messages ++
            [{ message_id := st.nextMessageId, content := content, timestamp := ts,
               user_uuid := some user_uuid, user_name := user_name,
               channel_id := channel_id }],
          nextMessageId := st.nextMessageId + 1 },
       Except.ok st.nextMessageId)
    else
      (st, Except.error (DBError.valueError
        ("User UUID " ++ user_uuid ++ " does not exist.")))
  else
    (st, Except.error (DBError.valueError
      ("Channel ID " ++ toString channel_id ++ " does not exist.")))

/-- `add_user_to_server`: raises `ValueError` if already a member; otherwise
inserts the membership row and assigns the hard-coded default role 1. It
never checks that the server (or the user) exists. -/
def add_user_to_server (st : DBState) (user_uuid : String) (server_id : Nat) :
    DBState × Except DBError Unit :=
  if is_user_in_server st user_uuid server_id then
    (st, Except.error (DBError.valueError ("User is already in that server!")))
  else
    (assign_role_to_user
      { st with memberships := st.memberships ++ [(user_uuid, server_id)] }
      user_uuid 1 server_id,
     Except.ok ())

/-- `create_user`: raises `ValueError` if the uuid is registered; otherwise
inserts the user, captures `cur.lastrowid` (the integer rowid of the users
insert, NOT the uuid), auto-joins the user to server 1, and returns that
rowid. An exception from `add_user_to_server` propagates after the user row
was already committed. -/
def create_user (st : DBState) (user_name : String) (uuid : String) :
    DBState × Except DBError RetVal :=
  if user_exists st uuid then
    (st, Except.error (DBError.valueError
      ("A user with the name \"" ++ user_name ++ "\" already exists!")))
  else
    let rowid := st.nextUserRowid
    let st1 := { st with users := st.users ++ [(uuid, user_name)],
                         nextUserRowid := st.nextUserRowid + 1 }
    match add_user_to_server st1 uuid 1 with
    | (st2, Except.error e) => (st2, Except.error e)
    | (st2, Except.ok _) => (st2, Except.ok (RetVal.int rowid))

/-- The documented default value of each capability column (`send_messages`
and `view_message_history` true, the rest false) — written from the spec's
defaults table, to compare with what `create_role` actually stores. -/
def defaultPerm (c : String) : Bool :=
  c == "send_messages" || c == "view_message_history"

/-! ### Helper lemmas -/

lemma isSome_find?_eq_any {α : Type} (p : α → Bool) (l : List α) :
    (l.find? p).isSome = l.any p := by
  induction l with
  | nil => rfl
  | cons x xs ih =>
    by_cases h : p x <;> simp [List.find?_cons, h, ih]

lemma length_filterMap_join (us : List (String × String)) (ms : List (String × Nat))
    (sid : Nat) :
    ((ms.filter (fun mb => mb.2 == sid)).filterMap
        (fun mb => (us.find? (fun usr => usr.1 == mb.1)).map (fun usr => usr.2))).length
      = (ms.filter (fun mb => mb.2 == sid && us.any (fun usr => usr.1 == mb.1))).length := by
  induction ms with
  | nil => rfl
  | cons mb ms ih =>
    have hany : us.any (fun usr => usr.1 == mb.1)
        = (us.find? (fun usr => usr.1 == mb.1)).isSome :=
      (isSome_find?_eq_any _ _).symm
    by_cases h2 : mb.2 == sid
    · cases hf : us.find? (fun usr => usr.1 == mb.1) with
      | none => simp [List.filter_cons, h2, hf, hany, ih]
      | some usr => simp [List.filter_cons, h2, hf, hany, ih]
    · simp [List.filter_cons, h2, ih]

lemma find?_eq_some_of_nodup_keys (l : List (String × String)) (uu nm : String)
    (hnd : (l.map Prod.fst).Nodup) (hmem : (uu, nm) ∈ l) :
    l.find? (fun usr => usr.1 == uu) = some (uu, nm) := by
  induction l with
  | nil => cases hmem
  | cons p ps ih =>
    rcases List.mem_cons.mp hmem with h | h
    · subst h
      simp [List.find?_cons]
    · have hnd' : p.1 ∉ ps.map Prod.fst ∧ (ps.map Prod.fst).Nodup := by
        rw [List.map_cons, List.nodup_cons] at hnd
        exact hnd
      by_cases hp : p.1 == uu
      · exfalso
        apply hnd'.1
        have : uu ∈ ps.map Prod.fst := List.mem_map.mpr ⟨(uu, nm), h, rfl⟩
        simpa [show p.1 = uu from by simpa using hp] using this
      · simp only [List.find?_cons, hp]
        exact ih hnd'.2 h

/-! ### C1 -/

/-- C1: for every user, server, and capability name among the fixed eight, a
user holding zero role assignments in that server gets `Except.ok false` from
`can_user` — false, never an error. -/
theorem can_user_no_roles_false (st : DBState) (u : String) (s : Nat) (c : String)
    (hc : c ∈ validPermissions)
    (hz : ∀ t ∈ st.user_roles, ¬(t.1 = u ∧ t.2.2 = s)) :
    can_user st u s c = Except.ok false := by
  have hfalse : st.user_roles.any (fun t =>
      t.1 == u && t.2.2 == s &&
        st.roles.any (fun r => r.role_id == t.2.1 && getPerm r c)) = false := by
    rw [List.any_eq_false]
    intro t ht
    have h := hz t ht
    simp only [Bool.and_eq_true, beq_iff_eq]
    tauto
  simp [can_user, hc, hfalse]

/-- C1 witness: a concrete state whose only role assignment belongs to a
different user. -/
theorem can_user_no_roles_false_witness :
    can_user { emptyDB with user_roles := [(("u2"), 1, 1)] } ("u9") 1 ("send_messages")
      = Except.ok false :=
  can_user_no_roles_false { emptyDB with user_roles := [(("u2"), 1, 1)] } ("u9") 1
    ("send_messages") (by decide) (by decide)

/-! ### C10 -/

/-- C10: `add_user_to_server` performs no server-existence check — for a user
not already a member, it succeeds even when the server id does not exist,
inserting the membership row and the default role-1 assignment. -/
theorem add_user_to_server_no_server_check (st : DBState) (u : String) (s : Nat)
    (hm : is_user_in_server st u s = false)
    (hs : server_exists st s = false) :
    (add_user_to_server st u s).2 = Except.ok () ∧
    (u, s) ∈ (add_user_to_server st u s).1.memberships ∧
    (u, 1, s) ∈ (add_user_to_server st u s).1.user_roles := by
  refine ⟨?_, ?_, ?_⟩
  · simp [add_user_to_server, hm]
  · simp only [add_user_to_server, hm, Bool.false_eq_true, if_false, assign_role_to_user]
    split <;> simp
  · simp only [add_user_to_server, hm, Bool.false_eq_true, if_false, assign_role_to_user]
    split
    · simpa using (by assumption)
    · simp

/-- C10 witness: the empty database has no server 7, yet the membership and
role assignment are inserted. -/
theorem add_user_to_server_no_server_check_witness :
    (add_user_to_server emptyDB ("u1") 7).2 = Except.ok () ∧
    (("u1"), 7) ∈ (add_user_to_server emptyDB ("u1") 7).1.memberships ∧
    (("u1"), 1, 7) ∈ (add_user_to_server emptyDB ("u1") 7).1.user_roles :=
  add_user_to_server_no_server_check emptyDB ("u1") 7 (by decide) (by decide)

/-! ### C7 -/

/-- C7: `create_role` with a rank outside [0, 255] is rejected by the schema
check with an integrity error and creates no role row; within range it
succeeds, returning the fresh role id, and every capability not given in the
partial map takes its documented default. -/
theorem create_role_rank_check (st : DBState) (name : String) (rank : Int)
    (perms : List (String × Bool)) :
    ((rank < 0 ∨ 255 < rank) →
        create_role st name rank perms = (st, Except.error DBError.integrityError)) ∧
    (0 ≤ rank → rank ≤ 255 →
        ∃ r : Role,
          (create_role st name rank perms).1.roles = st.roles ++ [r] ∧
          (create_role st name rank perms).2 = Except.ok st.nextRoleId ∧
          ∀ c ∈ validPermissions, perms.lookup c = none → getPerm r c = defaultPerm c) := by
  constructor
  · intro h
    simp [create_role, h]
  · intro h0 h255
    have hn : ¬(rank < 0 ∨ 255 < rank) := by omega
    refine ⟨{ role_id := st.nextRoleId, name := name, rank := rank,
              send_messages := permGet perms ("send_messages") true,
              view_message_history := permGet perms ("view_message_history") true,
              mute_members := permGet perms ("mute_members") false,
              kick_members := permGet perms ("kick_members") false,
              ban_members := permGet perms ("ban_members") false,
              manage_channels := permGet perms ("manage_channels") false,
              manage_server := permGet perms ("manage_server") false,
              super_admin := permGet perms ("super_admin") false }, ?_, ?_, ?_⟩
    · simp [create_role, hn]
    · simp [create_role, hn]
    · intro c hc hnone
      simp only [validPermissions, List.mem_cons, List.not_mem_nil, or_false] at hc
      rcases hc with rfl | rfl | rfl | rfl | rfl | rfl | rfl | rfl <;>
        simp [getPerm, permGet, hnone, defaultPerm]

/-- C7 witness: rank 300 is rejected on the empty database; rank 5 with an
empty capability map succeeds with the defaults. -/
theorem create_role_rank_check_witness :
    create_role emptyDB ("A") 300 [] = (emptyDB, Except.error DBError.integrityError) ∧
    ∃ r : Role,
      (create_role emptyDB ("B") 5 []).1.roles = emptyDB.roles ++ [r] ∧
      (create_role emptyDB ("B") 5 []).2 = Except.ok emptyDB.nextRoleId ∧
      ∀ c ∈ validPermissions, ([] : List (String × Bool)).lookup c = none →
        getPerm r c = defaultPerm c :=
  ⟨(create_role_rank_check emptyDB ("A") 300 []).1 (by decide),
   (create_role_rank_check emptyDB ("B") 5 []).2 (by decide) (by decide)⟩

/-! ### C4 -/

/-- Concrete state for C4: one server, one existing channel "general" with
channel_id 5. -/
def stC4 : DBState :=
  { emptyDB with
      servers := [(1, "Town Square")],
      channels := [{ channel_id := 5, name := "general", server_id := 1 }],
      nextChannelId := 6 }

/-- C4 counterexample: when a channel of that name already exists, the call
returns `None` (bare `return` in the source), not the existing channel's id 5
as the claim states. -/
theorem create_channel_existing_returns_none :
    get_channel_by_name stC4 1 ("general")
      = some { channel_id := 5, name := "general", server_id := 1 } ∧
    (create_channel_in_server stC4 1 ("general")).2 = Except.ok none ∧
    (none : Option Nat) ≠ some 5 := by
  refine ⟨rfl, rfl, by decide⟩

/-- C4 amended: `create_channel_in_server` is idempotent — an existing channel
of that name makes it return `None` without creating anything; a missing
server (when no such channel exists) raises `ValueError`; otherwise it inserts
the channel and returns the fresh id. -/
theorem create_channel_in_server_spec (st : DBState) (sid : Nat) (nm : String) :
    ((get_channel_by_name st sid nm).isSome = true →
        create_channel_in_server st sid nm = (st, Except.ok none)) ∧
    (get_channel_by_name st sid nm = none → server_exists st sid = false →
        create_channel_in_server st sid nm =
          (st, Except.error (DBError.valueError
            ("Server ID " ++ toString sid ++ " does not exist.")))) ∧
    (get_channel_by_name st sid nm = none → server_exists st sid = true →
        create_channel_in_server st sid nm =
          ({ st with
              channels := st.channels ++
                [{ channel_id := st.nextChannelId, name := nm, server_id := sid }],
              nextChannelId := st.nextChannelId + 1 },
           Except.ok (some st.nextChannelId))) := by
  refine ⟨?_, ?_, ?_⟩
  · intro h
    simp [create_channel_in_server, h]
  · intro h hs
    simp [create_channel_in_server, h, hs]
  · intro h hs
    simp [create_channel_in_server, h, hs]

/-- C4 amended witness: the three branches exercised on concrete states. -/
theorem create_channel_in_server_spec_witness :
    create_channel_in_server stC4 1 ("general") = (stC4, Except.ok none) ∧
    create_channel_in_server stC4 9 ("general") =
      (stC4, Except.error (DBError.valueError ("Server ID " ++ toString 9 ++ " does not exist."))) ∧
    create_channel_in_server stC4 1 ("random") =
      ({ stC4 with
          channels := stC4.channels ++
            [{ channel_id := stC4.nextChannelId, name := "random", server_id := 1 }],
          nextChannelId := stC4.nextChannelId + 1 },
       Except.ok (some stC4.nextChannelId)) :=
  ⟨(create_channel_in_server_spec stC4 1 ("general")).1 (by decide),
   (create_channel_in_server_spec stC4 9 ("general")).2.1 (by decide) (by decide),
   (create_channel_in_server_spec stC4 1 ("random")).2.2 (by decide) (by decide)⟩

/-! ### C5 -/

/-- Concrete state for C5: a bootstrapped database with the SYSTEM user
occupying users rowid 1, so the next insert gets rowid 2. -/
def stC5 : DBState :=
  { emptyDB with
      servers := [(1, "Town Square")],
      users := [(("00000000-0000-0000-0000-000000000000"), ("SYSTEM"))],
      memberships := [(("00000000-0000-0000-0000-000000000000"), 1)],
      nextUserRowid := 2 }

/-- C5 counterexample: `create_user` returns `cur.lastrowid` — the integer
rowid 2 of the users insert — not the created user's uuid string "u1". -/
theorem create_user_returns_rowid_not_uuid :
    (create_user stC5 ("alice") ("u1")).2 = Except.ok (RetVal.int 2) ∧
    RetVal.int 2 ≠ RetVal.str ("u1") := by
  refine ⟨rfl, by decide⟩

/-- C5 amended: an already-registered uuid is rejected with the duplicate-user
`ValueError` and nothing is created; a fresh uuid (not already carrying a
membership of server 1) is persisted, auto-joined to server 1 with the default
role, and the call returns the integer rowid of the users insert. -/
theorem create_user_spec (st : DBState) (uname uuid : String) :
    (user_exists st uuid = true →
        create_user st uname uuid =
          (st, Except.error (DBError.valueError
            ("A user with the name \"" ++ uname ++ "\" already exists!")))) ∧
    (user_exists st uuid = false → is_user_in_server st uuid 1 = false →
        (create_user st uname uuid).2 = Except.ok (RetVal.int st.nextUserRowid) ∧
        (uuid, uname) ∈ (create_user st uname uuid).1.users ∧
        (uuid, 1) ∈ (create_user st uname uuid).1.memberships ∧
        (uuid, 1, 1) ∈ (create_user st uname uuid).1.user_roles) := by
  constructor
  · intro h
    simp [create_user, h]
  · intro h hm
    have hm1 : is_user_in_server
        { st with users := st.users ++ [(uuid, uname)],
                  nextUserRowid := st.nextUserRowid + 1 } uuid 1 = false := hm
    refine ⟨?_, ?_, ?_, ?_⟩
    · simp [create_user, h, add_user_to_server, hm1]
    · simp only [create_user, h, Bool.false_eq_true, if_false, add_user_to_server, hm1,
        assign_role_to_user]
      split <;> simp
    · simp only [create_user, h, Bool.false_eq_true, if_false, add_user_to_server, hm1,
        assign_role_to_user]
      split <;> simp
    · simp only [create_user, h, Bool.false_eq_true, if_false, add_user_to_server, hm1,
        assign_role_to_user]
      split
      · simpa using (by assumption)
      · simp

/-- C5 amended witness: duplicate SYSTEM uuid rejected; fresh uuid "u1"
persisted, joined to server 1, returning rowid 2. -/
theorem create_user_spec_witness :
    create_user stC5 ("X") ("00000000-0000-0000-0000-000000000000") =
      (stC5, Except.error (DBError.valueError
        ("A user with the name \"" ++ "X" ++ "\" already exists!"))) ∧
    ((create_user stC5 ("alice") ("u1")).2 = Except.ok (RetVal.int stC5.nextUserRowid) ∧
     (("u1"), ("alice")) ∈ (create_user stC5 ("alice") ("u1")).1.users ∧
     (("u1"), 1) ∈ (create_user stC5 ("alice") ("u1")).1.memberships ∧
     (("u1"), 1, 1) ∈ (create_user stC5 ("alice") ("u1")).1.user_roles) :=
  ⟨(create_user_spec stC5 ("X") ("00000000-0000-0000-0000-000000000000")).1 (by decide),
   (create_user_spec stC5 ("alice") ("u1")).2 (by decide) (by decide)⟩

/-! ### C6 -/

/-- Concrete state for C6: two distinct users who share the username "bob",
both members of server 1. -/
def stC6 : DBState :=
  { emptyDB with
      users := [(("u1"), ("bob")), (("u2"), ("bob"))],
      memberships := [(("u1"), 1), (("u2"), 1)],
      nextUserRowid := 3 }

/-- C6 counterexample: usernames are not unique, so two distinct members
sharing a username produce duplicate entries in `users_in_server_id`. -/
theorem users_in_server_id_duplicates :
    users_in_server_id stC6 1 = [("bob"), ("bob")] ∧
    ¬ (users_in_server_id stC6 1).Nodup := by
  refine ⟨rfl, by decide⟩

/-- C6 amended: `users_in_server_id` returns one username per membership of
the server whose uuid is registered (order unspecified); every entry comes
from a member, and every member's username appears — but entries can repeat
when distinct members share a username. -/
theorem users_in_server_id_spec (st : DBState) (sid : Nat)
    (huu : (st.users.map Prod.fst).Nodup) :
    (users_in_server_id st sid).length
      = (st.memberships.filter (fun mb => mb.2 == sid &&
          st.users.any (fun usr => usr.1 == mb.1))).length ∧
    (∀ nm ∈ users_in_server_id st sid,
        ∃ uu, (uu, nm) ∈ st.users ∧ (uu, sid) ∈ st.memberships) ∧
    (∀ uu nm, (uu, nm) ∈ st.users → (uu, sid) ∈ st.memberships →
        nm ∈ users_in_server_id st sid) := by
  refine ⟨?_, ?_, ?_⟩
  · exact length_filterMap_join st.users st.memberships sid
  · intro nm hnm
    simp only [users_in_server_id] at hnm
    obtain ⟨mb, hmb, hf⟩ := List.mem_filterMap.mp hnm
    have hmbmem := List.mem_of_mem_filter hmb
    have hmbsid : mb.2 = sid := by simpa using List.of_mem_filter hmb
    obtain ⟨usr, husr, hsnd⟩ := Option.map_eq_some'.mp hf
    have hpred : usr.1 = mb.1 := by simpa using List.find?_some husr
    have husrmem := List.mem_of_find?_eq_some husr
    refine ⟨usr.1, ?_, ?_⟩
    · have : (usr.1, nm) = usr := by
        rw [← hsnd]
      rw [this]
      exact husrmem
    · have : (usr.1, sid) = mb := by
        rw [hpred, ← hmbsid]
      rw [this]
      exact hmbmem
  · intro uu nm hu hm
    simp only [users_in_server_id]
    apply List.mem_filterMap.mpr
    refine ⟨(uu, sid), List.mem_filter.mpr ⟨hm, by simp⟩, ?_⟩
    have hfind : st.users.find? (fun usr => usr.1 == uu) = some (uu, nm) :=
      find?_eq_some_of_nodup_keys st.users uu nm huu hu
    simp [hfind]

/-- C6 amended witness: the duplicate-username state instantiates all three
clauses. -/
theorem users_in_server_id_spec_witness :
    (users_in_server_id stC6 1).length
      = (stC6.memberships.filter (fun mb => mb.2 == 1 &&
          stC6.users.any (fun usr => usr.1 == mb.1))).length ∧
    (∀ nm ∈ users_in_server_id stC6 1,
        ∃ uu, (uu, nm) ∈ stC6.users ∧ (uu, 1) ∈ stC6.memberships) ∧
    (∀ uu nm, (uu, nm) ∈ stC6.users → (uu, 1) ∈ stC6.memberships →
        nm ∈ users_in_server_id stC6 1) :=
  users_in_server_id_spec stC6 1 (by decide)

/-! ### C2 -/

lemma roles_assign (st : DBState) (u : String) (rid s : Nat) :
    (assign_role_to_user st u rid s).roles = st.roles := by
  unfold assign_role_to_user
  split <;> rfl

lemma mem_user_roles_assign (st : DBState) (u : String) (rid s : Nat)
    (t : String × Nat × Nat) (ht : t ∈ st.user_roles) :
    t ∈ (assign_role_to_user st u rid s).user_roles := by
  unfold assign_role_to_user
  split
  · exact ht
  · exact List.mem_append_left _ ht

lemma assigned_mem_user_roles (st : DBState) (u : String) (rid s : Nat) :
    (u, rid, s) ∈ (assign_role_to_user st u rid s).user_roles := by
  unfold assign_role_to_user
  split
  · assumption
  · simp

/-- Characterization of `can_user` as existence of a granting held role. -/
lemma can_user_eq_true_iff (st : DBState) (u : String) (s : Nat) (c : String)
    (hc : c ∈ validPermissions) :
    can_user st u s c = Except.ok true ↔
      ∃ t ∈ st.user_roles, t.1 = u ∧ t.2.2 = s ∧
        ∃ r ∈ st.roles, r.role_id = t.2.1 ∧ getPerm r c = true := by
  unfold can_user
  rw [if_pos hc]
  simp only [Except.ok.injEq]
  rw [List.any_eq_true]
  constructor
  · rintro ⟨t, ht, hp⟩
    simp only [Bool.and_eq_true, beq_iff_eq] at hp
    obtain ⟨⟨h1, h2⟩, hrest⟩ := hp
    rw [List.any_eq_true] at hrest
    obtain ⟨r, hr, hpred⟩ := hrest
    simp only [Bool.and_eq_true, beq_iff_eq] at hpred
    exact ⟨t, ht, h1, h2, r, hr, hpred.1, hpred.2⟩
  · rintro ⟨t, ht, h1, h2, r, hr, hid, hperm⟩
    refine ⟨t, ht, ?_⟩
    simp only [Bool.and_eq_true, beq_iff_eq]
    refine ⟨⟨h1, h2⟩, ?_⟩
    rw [List.any_eq_true]
    exact ⟨r, hr, by simp [hid, hperm]⟩

/-- C2: `can_user` is true exactly when some held role grants the capability
(union-of-capabilities); assigning any further role preserves a true result;
and assigning a granting role to a user whose current answer is false flips
it to true. -/
theorem can_user_union_monotone (st : DBState) (u : String) (s : Nat) (c : String)
    (rid rid2 : Nat) (hc : c ∈ validPermissions) :
    (can_user st u s c = Except.ok true ↔
      ∃ t ∈ st.user_roles, t.1 = u ∧ t.2.2 = s ∧
        ∃ r ∈ st.roles, r.role_id = t.2.1 ∧ getPerm r c = true) ∧
    (can_user st u s c = Except.ok true →
      can_user (assign_role_to_user st u rid2 s) u s c = Except.ok true) ∧
    ((∃ r ∈ st.roles, r.role_id = rid ∧ getPerm r c = true) →
      can_user st u s c = Except.ok false →
      can_user (assign_role_to_user st u rid s) u s c = Except.ok true) := by
  refine ⟨can_user_eq_true_iff st u s c hc, ?_, ?_⟩
  · intro h
    rw [can_user_eq_true_iff _ _ _ _ hc] at h
    rw [can_user_eq_true_iff _ _ _ _ hc]
    obtain ⟨t, ht, h1, h2, r, hr, hid, hperm⟩ := h
    exact ⟨t, mem_user_roles_assign st u rid2 s t ht, h1, h2, r,
      by rw [roles_assign]; exact hr, hid, hperm⟩
  · rintro ⟨r, hr, hid, hperm⟩ hfalse
    rw [can_user_eq_true_iff _ _ _ _ hc]
    exact ⟨(u, rid, s), assigned_mem_user_roles st u rid s, rfl, rfl, r,
      by rw [roles_assign]; exact hr, hid, hperm⟩

/-- C2 witness: instantiated on the empty database at capability
"send_messages". -/
theorem can_user_union_monotone_witness :
    (can_user emptyDB ("u1") 1 ("send_messages") = Except.ok true ↔
      ∃ t ∈ emptyDB.user_roles, t.1 = ("u1") ∧ t.2.2 = 1 ∧
        ∃ r ∈ emptyDB.roles, r.role_id = t.2.1 ∧ getPerm r ("send_messages") = true) ∧
    (can_user emptyDB ("u1") 1 ("send_messages") = Except.ok true →
      can_user (assign_role_to_user emptyDB ("u1") 2 1) ("u1") 1 ("send_messages")
        = Except.ok true) ∧
    ((∃ r ∈ emptyDB.roles, r.role_id = 1 ∧ getPerm r ("send_messages") = true) →
      can_user emptyDB ("u1") 1 ("send_messages") = Except.ok false →
      can_user (assign_role_to_user emptyDB ("u1") 1 1) ("u1") 1 ("send_messages")
        = Except.ok true) :=
  can_user_union_monotone emptyDB ("u1") 1 ("send_messages") 1 2 (by decide)

/-! ### C3 -/

lemma mem_rolesJoin_of (roles : List Role) (ts : List (String × Nat × Nat))
    (t : String × Nat × Nat) (r : Role)
    (ht : t ∈ ts) (hr : r ∈ roles) (hid : r.role_id = t.2.1) :
    r ∈ rolesJoin roles ts := by
  induction ts with
  | nil => cases ht
  | cons t0 ts ih =>
    rcases List.mem_cons.mp ht with rfl | h
    · exact List.mem_append_left _ (List.mem_filter.mpr ⟨hr, by simp [hid]⟩)
    · exact List.mem_append_right _ (ih h)

lemma add_mem_user_roles (st : DBState) (u : String) (s : Nat)
    (hmem : is_user_in_server st u s = false) :
    (u, 1, s) ∈ (add_user_to_server st u s).1.user_roles := by
  simp only [add_user_to_server, hmem, Bool.false_eq_true, if_false]
  exact assigned_mem_user_roles _ u 1 s

lemma add_roles_eq (st : DBState) (u : String) (s : Nat)
    (hmem : is_user_in_server st u s = false) :
    (add_user_to_server st u s).1.roles = st.roles := by
  simp only [add_user_to_server, hmem, Bool.false_eq_true, if_false]
  rw [roles_assign]

/-- C3: adding a non-member user to a server succeeds, inserts the membership
row, and as a side effect assigns role 1; given that role 1 is present in the
roles table (the bootstrap "DefaultPerms" role, which grants send_messages),
`get_roles_for_user_in_server` afterwards contains it and
`can_user(..., "send_messages")` is true. -/
theorem add_user_to_server_default_role (st : DBState) (u : String) (s : Nat) (r : Role)
    (hmem : is_user_in_server st u s = false)
    (hr : r ∈ st.roles) (hid : r.role_id = 1) (hsend : r.send_messages = true) :
    (add_user_to_server st u s).2 = Except.ok () ∧
    (u, s) ∈ (add_user_to_server st u s).1.memberships ∧
    r ∈ get_roles_for_user_in_server (add_user_to_server st u s).1 u s ∧
    can_user (add_user_to_server st u s).1 u s ("send_messages") = Except.ok true := by
  have htrip := add_mem_user_roles st u s hmem
  have hroles := add_roles_eq st u s hmem
  refine ⟨?_, ?_, ?_, ?_⟩
  · simp [add_user_to_server, hmem]
  · simp only [add_user_to_server, hmem, Bool.false_eq_true, if_false, assign_role_to_user]
    split <;> simp
  · unfold get_roles_for_user_in_server
    apply mem_rolesJoin_of _ _ (u, 1, s)
    · exact List.mem_filter.mpr ⟨htrip, by simp⟩
    · rw [hroles]
      exact hr
    · exact hid
  · rw [can_user_eq_true_iff _ _ _ _ (by decide)]
    refine ⟨(u, 1, s), htrip, rfl, rfl, r, ?_, hid, ?_⟩
    · rw [hroles]
      exact hr
    · show r.send_messages = true
      exact hsend

/-- The bootstrap "DefaultPerms" role: role_id 1, rank 0, all capability
defaults. -/
def defaultRole : Role :=
  { role_id := 1, name := "DefaultPerms", rank := 0,
    send_messages := true, view_message_history := true,
    mute_members := false, kick_members := false, ban_members := false,
    manage_channels := false, manage_server := false, super_admin := false }

/-- Concrete state for C3: a bootstrapped roles table holding DefaultPerms as
role 1, and a server. -/
def stC3 : DBState :=
  { emptyDB with
      servers := [(1, "Town Square")],
      roles := [defaultRole],
      nextRoleId := 2 }

/-- C3 witness: joining a fresh user to server 1 of the bootstrapped state. -/
theorem add_user_to_server_default_role_witness :
    (add_user_to_server stC3 ("u1") 1).2 = Except.ok () ∧
    (("u1"), 1) ∈ (add_user_to_server stC3 ("u1") 1).1.memberships ∧
    defaultRole ∈ get_roles_for_user_in_server (add_user_to_server stC3 ("u1") 1).1 ("u1") 1 ∧
    can_user (add_user_to_server stC3 ("u1") 1).1 ("u1") 1 ("send_messages")
      = Except.ok true :=
  add_user_to_server_default_role stC3 ("u1") 1 defaultRole
    (by decide) (by decide) (by decide) (by decide)

/-! ### C8 -/

lemma mem_rolesJoin (roles : List Role) (ts : List (String × Nat × Nat)) (r : Role) :
    r ∈ rolesJoin roles ts ↔ ∃ t ∈ ts, r ∈ roles ∧ r.role_id = t.2.1 := by
  induction ts with
  | nil => simp [rolesJoin]
  | cons t0 ts ih =>
    simp only [rolesJoin, List.mem_append, List.mem_filter, beq_iff_eq, ih]
    constructor
    · rintro (h | h)
      · exact ⟨t0, List.mem_cons_self _ _, h.1, h.2⟩
      · obtain ⟨t, ht, hr, hid⟩ := h
        exact ⟨t, List.mem_cons_of_mem _ ht, hr, hid⟩
    · rintro ⟨t, ht, hr, hid⟩
      rcases List.mem_cons.mp ht with rfl | ht
      · exact Or.inl ⟨hr, hid⟩
      · exact Or.inr ⟨t, ht, hr, hid⟩

lemma nodup_rolesJoin (roles : List Role) (ts : List (String × Nat × Nat))
    (hroles : (roles.map Role.role_id).Nodup)
    (hts : (ts.map (fun t => t.2.1)).Nodup) :
    (rolesJoin roles ts).Nodup := by
  induction ts with
  | nil => exact List.nodup_nil
  | cons t0 ts ih =>
    rw [List.map_cons, List.nodup_cons] at hts
    refine List.Nodup.append ?_ (ih hts.2) ?_
    · exact (List.Nodup.of_map _ hroles).filter _
    · intro r hrf hrj
      have hid0 : r.role_id = t0.2.1 := by simpa using List.of_mem_filter hrf
      obtain ⟨t, ht, hr, hid⟩ := (mem_rolesJoin roles ts r).mp hrj
      apply hts.1
      have hmm : t.2.1 ∈ ts.map (fun t => t.2.1) := List.mem_map.mpr ⟨t, ht, rfl⟩
      have heq : t0.2.1 = t.2.1 := by rw [← hid0, hid]
      rw [heq]
      exact hmm

lemma filtered_rid_nodup (l : List (String × Nat × Nat)) (u : String) (s : Nat)
    (h : l.Nodup) :
    ((l.filter (fun t => t.1 == u && t.2.2 == s)).map (fun t => t.2.1)).Nodup := by
  induction l with
  | nil => simp
  | cons t ts ih =>
    rw [List.nodup_cons] at h
    by_cases hp : (t.1 == u && t.2.2 == s) = true
    · rw [List.filter_cons, if_pos hp, List.map_cons, List.nodup_cons]
      refine ⟨?_, ih h.2⟩
      intro hmemmap
      obtain ⟨t', ht', heq⟩ := List.mem_map.mp hmemmap
      have ht'mem := List.mem_of_mem_filter ht'
      have hp' := List.of_mem_filter ht'
      simp only [Bool.and_eq_true, beq_iff_eq] at hp hp'
      apply h.1
      have hteq : t' = t := by
        obtain ⟨a, b, c⟩ := t
        obtain ⟨a', b', c'⟩ := t'
        simp_all
      rw [← hteq]
      exact ht'mem
    · rw [List.filter_cons, if_neg hp]
      exact ih h.2

lemma nodup_user_roles_assign (st : DBState) (u : String) (rid s : Nat)
    (h : st.user_roles.Nodup) :
    (assign_role_to_user st u rid s).user_roles.Nodup := by
  unfold assign_role_to_user
  split
  · exact h
  · rename_i hnot
    refine List.Nodup.append h (List.nodup_singleton _) ?_
    intro x hx hx'
    exact hnot (by rwa [List.mem_singleton.mp hx'] at hx)

/-- C8: `assign_role_to_user` is idempotent — a second call with the same
triple returns the state unchanged (and, being total, raises no error), so
`get_roles_for_user_in_server` is unchanged; and with distinct role ids and
no duplicate assignments it contains no duplicate role. -/
theorem assign_role_to_user_idempotent (st : DBState) (u : String) (rid s : Nat)
    (h1 : st.user_roles.Nodup) (h2 : (st.roles.map Role.role_id).Nodup) :
    assign_role_to_user (assign_role_to_user st u rid s) u rid s
      = assign_role_to_user st u rid s ∧
    get_roles_for_user_in_server
        (assign_role_to_user (assign_role_to_user st u rid s) u rid s) u s
      = get_roles_for_user_in_server (assign_role_to_user st u rid s) u s ∧
    (get_roles_for_user_in_server (assign_role_to_user st u rid s) u s).Nodup := by
  have hmem := assigned_mem_user_roles st u rid s
  have conj1 : assign_role_to_user (assign_role_to_user st u rid s) u rid s
      = assign_role_to_user st u rid s := by
    conv_lhs => rw [assign_role_to_user]
    rw [if_pos hmem]
  refine ⟨conj1, by rw [conj1], ?_⟩
  unfold get_roles_for_user_in_server
  rw [roles_assign]
  exact nodup_rolesJoin st.roles _ h2
    (filtered_rid_nodup _ u s (nodup_user_roles_assign st u rid s h1))

/-- C8 witness: a double assignment on the bootstrapped state. -/
theorem assign_role_to_user_idempotent_witness :
    assign_role_to_user (assign_role_to_user stC3 ("u1") 1 1) ("u1") 1 1
      = assign_role_to_user stC3 ("u1") 1 1 ∧
    get_roles_for_user_in_server
        (assign_role_to_user (assign_role_to_user stC3 ("u1") 1 1) ("u1") 1 1) ("u1") 1
      = get_roles_for_user_in_server (assign_role_to_user stC3 ("u1") 1 1) ("u1") 1 ∧
    (get_roles_for_user_in_server (assign_role_to_user stC3 ("u1") 1 1) ("u1") 1).Nodup :=
  assign_role_to_user_idempotent stC3 ("u1") 1 1 (by decide) (by decide)

/-! ### C9 -/

lemma mem_insertByTs (m x : Message) (l : List Message) :
    x ∈ insertByTs m l ↔ x = m ∨ x ∈ l := by
  induction l with
  | nil => simp [insertByTs]
  | cons y ys ih =>
    simp only [insertByTs]
    split
    · simp [List.mem_cons]
    · rw [List.mem_cons, ih, List.mem_cons]
      tauto

lemma mem_sortByTs (x : Message) (l : List Message) : x ∈ sortByTs l ↔ x ∈ l := by
  induction l with
  | nil => simp [sortByTs]
  | cons y ys ih =>
    rw [show sortByTs (y :: ys) = insertByTs y (sortByTs ys) from rfl,
      mem_insertByTs, ih, List.mem_cons]

lemma insertByTs_append_last (m x : Message) (s : List Message)
    (hs : ∀ y ∈ s, y.timestamp ≤ m.timestamp) (hx : x.timestamp ≤ m.timestamp) :
    insertByTs x (s ++ [m]) = insertByTs x s ++ [m] := by
  induction s with
  | nil =>
    simp [insertByTs, hx]
  | cons y ys ih =>
    have h1 : insertByTs x ((y :: ys) ++ [m])
        = if x.timestamp ≤ y.timestamp then x :: y :: (ys ++ [m])
          else y :: insertByTs x (ys ++ [m]) := rfl
    have h2 : insertByTs x (y :: ys)
        = if x.timestamp ≤ y.timestamp then x :: y :: ys
          else y :: insertByTs x ys := rfl
    rw [h1, h2]
    by_cases hxy : x.timestamp ≤ y.timestamp
    · rw [if_pos hxy, if_pos hxy]
      rfl
    · rw [if_neg hxy, if_neg hxy,
        ih (fun z hz => hs z (List.mem_cons_of_mem _ hz))]
      rfl

lemma sortByTs_append_max (l : List Message) (m : Message)
    (h : ∀ x ∈ l, x.timestamp ≤ m.timestamp) :
    sortByTs (l ++ [m]) = sortByTs l ++ [m] := by
  induction l with
  | nil => rfl
  | cons y ys ih =>
    have h' : ∀ x ∈ ys, x.timestamp ≤ m.timestamp :=
      fun x hx => h x (List.mem_cons_of_mem _ hx)
    calc sortByTs ((y :: ys) ++ [m])
        = insertByTs y (sortByTs (ys ++ [m])) := rfl
      _ = insertByTs y (sortByTs ys ++ [m]) := by rw [ih h']
      _ = insertByTs y (sortByTs ys) ++ [m] :=
          insertByTs_append_last m y (sortByTs ys)
            (fun z hz => h' z ((mem_sortByTs z ys).mp hz))
            (h y (List.mem_cons_self _ _))
      _ = sortByTs (y :: ys) ++ [m] := rfl

/-- C9 amended: posting a message to an existing channel by a registered
author — with the wall clock not behind any stored message of that channel —
succeeds, and the channel history becomes the previous history with the new
row appended last: matching content, the new timestamp, and the author's
currently registered username (the query joins `users`, it does not return
the `author_name` argument). -/
theorem create_message_round_trip (st : DBState) (cid : Nat)
    (u un an content : String) (ts : Nat)
    (hch : st.channels.any (fun c => c.channel_id == cid) = true)
    (hu : st.users.find? (fun usr => usr.1 == u) = some (u, un))
    (hts : ∀ m ∈ st.messages, m.channel_id = cid → m.timestamp ≤ ts) :
    (create_message_in_channel st cid u an content ts).2 = Except.ok st.nextMessageId ∧
    get_messages_in_channel (create_message_in_channel st cid u an content ts).1 cid
      = get_messages_in_channel st cid ++ [(st.nextMessageId, content, ts, some un)] := by
  have hue : user_exists st u = true := by
    unfold user_exists
    rw [← isSome_find?_eq_any, hu]
    rfl
  set newMsg : Message :=
    { message_id := st.nextMessageId, content := content, timestamp := ts,
      user_uuid := some u, user_name := an, channel_id := cid } with hnew
  have hstate : (create_message_in_channel st cid u an content ts).1
      = { st with messages := st.messages ++ [newMsg],
                  nextMessageId := st.nextMessageId + 1 } := by
    simp [create_message_in_channel, hch, hue, hnew]
  refine ⟨by simp [create_message_in_channel, hch, hue], ?_⟩
  rw [hstate]
  unfold get_messages_in_channel
  have hfilter : (st.messages ++ [newMsg]).filter (fun m => m.channel_id == cid)
      = st.messages.filter (fun m => m.channel_id == cid) ++ [newMsg] := by
    rw [List.filter_append]
    simp [hnew]
  have hsort : sortByTs (st.messages.filter (fun m => m.channel_id == cid) ++ [newMsg])
      = sortByTs (st.messages.filter (fun m => m.channel_id == cid)) ++ [newMsg] := by
    apply sortByTs_append_max
    intro x hx
    have hxm := List.mem_of_mem_filter hx
    have hxc : x.channel_id = cid := by simpa using List.of_mem_filter hx
    exact hts x hxm hxc
  show (sortByTs ((st.messages ++ [newMsg]).filter (fun m => m.channel_id == cid))).map
        (messageRow { st with messages := st.messages ++ [newMsg],
                              nextMessageId := st.nextMessageId + 1 })
      = _
  rw [hfilter, hsort, List.map_append]
  have hrowfun : messageRow { st with messages := st.messages ++ [newMsg],
                                      nextMessageId := st.nextMessageId + 1 }
      = messageRow st := rfl
  rw [hrowfun]
  congr 1
  simp [messageRow, hnew, hu]

/-- Concrete state for C9: user "u1" registered as "alice", one channel. -/
def stC9 : DBState :=
  { emptyDB with
      servers := [(1, "Town Square")],
      users := [(("u1"), ("alice"))],
      channels := [{ channel_id := 1, name := "general", server_id := 1 }],
      nextChannelId := 2,
      nextUserRowid := 2 }

/-- C9 counterexample: posting with `author_name` "bob" while the author's
registered username is "alice" — the history row carries "alice", so no row
matches the posted author name as the claim requires. -/
theorem history_ignores_posted_author_name :
    (create_message_in_channel stC9 1 ("u1") ("bob") ("hi") 5).2 = Except.ok 1 ∧
    get_messages_in_channel (create_message_in_channel stC9 1 ("u1") ("bob") ("hi") 5).1 1
      = [(1, ("hi"), 5, some ("alice"))] ∧
    (some ("alice") : Option String) ≠ some ("bob") := by
  refine ⟨rfl, rfl, by decide⟩

/-- C9 amended witness: posting with the author's current username on the
concrete state. -/
theorem create_message_round_trip_witness :
    (create_message_in_channel stC9 1 ("u1") ("alice") ("hi") 5).2
      = Except.ok stC9.nextMessageId ∧
    get_messages_in_channel (create_message_in_channel stC9 1 ("u1") ("alice") ("hi") 5).1 1
      = get_messages_in_channel stC9 1 ++ [(stC9.nextMessageId, ("hi"), 5, some ("alice"))] :=
  create_message_round_trip stC9 1 ("u1") ("alice") ("alice") ("hi") 5
    (by decide) (by decide) (by decide)
